import Mathlib

/-!
Shallow embedding of `src/german_pos_api.py` (a FastAPI service exposing
`POST /tag` backed by a primary spaCy pipeline and a secondary Stanza
pipeline) together with proofs about the claims of its specification.

Python strings are embedded as Lean `String`; the string primitives the
source uses (`str.strip`, `str.split` on a one-character separator, the
`in` test, dict comprehensions) are defined below by structural recursion
on the character list so that concrete runs reduce inside the kernel.
-/

namespace GermanPosApi

/-- Characters stripped by Python's `str.strip()` (the ASCII whitespace
class; the source never feeds exotic Unicode spaces through `strip`). -/
def pyIsSpace (c : Char) : Bool :=
  c = ' ' || c = '\t' || c = '\n' || c = '\r' || c = '\x0b' || c = '\x0c'

/-- Python `s.strip()`: remove leading and trailing whitespace. -/
def pyStrip (s : String) : String :=
  ⟨((s.data.dropWhile pyIsSpace).reverse.dropWhile pyIsSpace).reverse⟩

/-- Split a character list at every occurrence of `c`
(Python `str.split(sep)` with a one-character separator). -/
def splitOnCharAux (c : Char) : List Char → List (List Char)
  | [] => [[]]
  | x :: xs =>
    if x = c then [] :: splitOnCharAux c xs
    else
      match splitOnCharAux c xs with
      | [] => [[x]]
      | y :: ys => (x :: y) :: ys

/-- Python `s.split(c)` for a one-character separator `c`. -/
def pySplitChar (s : String) (c : Char) : List String :=
  (splitOnCharAux c s.data).map (fun l => ⟨l⟩)

/-- Python `c in s` for a one-character needle. -/
def pyInStr (c : Char) (s : String) : Bool :=
  s.data.contains c

/-- Assignment `d[k] = v` on a Python dict represented as an association
list in insertion order: an existing key keeps its position and gets the
new value, a new key is appended. -/
def dictInsert (d : List (String × String)) (k v : String) :
    List (String × String) :=
  if d.any (fun p => p.1 == k) then
    d.map (fun p => if p.1 == k then (p.1, v) else p)
  else d ++ [(k, v)]

/-- The Python dict built from a sequence of key/value pairs in order
(dict comprehension semantics: later pairs overwrite earlier keys). -/
def dictOfPairs (ps : List (String × String)) : List (String × String) :=
  ps.foldl (fun d p => dictInsert d p.1 p.2) []

/-- JSON values, as produced by serializing the handler's return value.
An object is a key/value list in insertion order; a Python `None` becomes
`null`. Distinguishes a key that is absent from a key bound to `null`. -/
inductive Json where
  | null : Json
  | bool : Bool → Json
  | str : String → Json
  | arr : List Json → Json
  | obj : List (String × Json) → Json

/-- Field access on a JSON object: `some v` when the key is present with
value `v`, `none` when the key is absent (or the value is not an object). -/
def Json.lookup (j : Json) (k : String) : Option Json :=
  match j with
  | .obj kvs => (kvs.find? (fun p => p.1 == k)).map (fun p => p.2)
  | _ => none

/-! ## Engine-native document shapes

Only the attributes the source reads are modelled. External calls that can
raise at runtime are modelled as `Except Unit` values carried by the data:
`SpacyToken.morphToDict` stands for the call `t.morph.to_dict()` inside
`spacy_to_tokens`, which the source guards with `try/except`. -/

/-- A spaCy token as consumed by `spacy_to_tokens`: surface `text`, the
engine's whitespace flag `is_space`, coarse tag `pos_`, lemma `lemma_`,
and the (fallible) result of `t.morph.to_dict()`. -/
structure SpacyToken where
  text : String
  is_space : Bool
  pos_ : String
  lemma_ : String
  morphToDict : Except Unit (List (String × String))

/-- A spaCy sentence: the tokens iterated by `for t in sent`. -/
structure SpacySent where
  toks : List SpacyToken

/-- A spaCy document: the sentences iterated by `for sent in doc.sents`. -/
structure SpacyDoc where
  sents : List SpacySent

/-- A Stanza word as consumed by `stanza_to_tokens`: surface `text`,
universal tag `upos`, `lemma`, and `feats`, which Stanza reports as either
a feature string or `None`. -/
structure StanzaWord where
  text : String
  upos : String
  «lemma» : String
  feats : Option String

/-- A Stanza sentence: the words iterated by `for w in s.words`. -/
structure StanzaSent where
  words : List StanzaWord

/-- A Stanza document: the sentences iterated by `for s in doc.sentences`. -/
structure StanzaDoc where
  sentences : List StanzaSent

/-! ## Normalizers -/

/-- The `morph` dict computed for one spaCy token:
`{}` unless `include_morph`; under `include_morph`, the dict rebuilt from
`t.morph.to_dict().items()`, degraded to `{}` by the `except` clause when
the extraction raises. -/
def spacyMorph (include_morph : Bool) (t : SpacyToken) :
    List (String × String) :=
  if include_morph then
    match t.morphToDict with
    | .ok items => dictOfPairs items
    | .error _ => []
  else []

/-- The token dict appended by `spacy_to_tokens` for one kept token. -/
def spacyTokenJson (include_lemma include_morph : Bool) (t : SpacyToken) :
    Json :=
  .obj [("text", .str t.text), ("pos", .str t.pos_),
        ("lemma", if include_lemma then .str t.lemma_ else .null),
        ("morph", .obj ((spacyMorph include_morph t).map
          (fun p => (p.1, Json.str p.2))))]

/-- `spacy_to_tokens(doc, include_lemma, include_morph)`: one sentence
object per `doc.sents` entry; tokens with `t.is_space` are skipped. -/
def spacy_to_tokens (doc : SpacyDoc) (include_lemma include_morph : Bool) :
    List Json :=
  doc.sents.map (fun sent =>
    Json.obj [("tokens", Json.arr
      ((sent.toks.filter (fun t => !t.is_space)).map
        (spacyTokenJson include_lemma include_morph)))])

/-- The contribution of one `kv` chunk of the feature string to the feats
dict: `kv.split("=")[0] : kv.split("=")[1]` guarded by `if "=" in kv`
(`"=" in kv` holds exactly when the split has a second component). -/
def featPair (kv : String) : Option (String × String) :=
  match pySplitChar kv '=' with
  | k :: v :: _ => some (k, v)
  | _ => none

/-- `{kv.split("=")[0]: kv.split("=")[1] for kv in f.split("|") if "=" in kv}`. -/
def parseFeats (f : String) : List (String × String) :=
  dictOfPairs ((pySplitChar f '|').filterMap featPair)

/-- The `feats` dict computed for one Stanza word: `{}` unless
`include_morph and w.feats` (a `None` or empty feature string is falsy),
else the parsed feature string. -/
def stanzaMorph (include_morph : Bool) (w : StanzaWord) :
    List (String × String) :=
  if include_morph then
    match w.feats with
    | some f => if f = "" then [] else parseFeats f
    | none => []
  else []

/-- The token dict appended by `stanza_to_tokens` for one kept word. -/
def stanzaTokenJson (include_lemma include_morph : Bool) (w : StanzaWord) :
    Json :=
  .obj [("text", .str w.text), ("pos", .str w.upos),
        ("lemma", if include_lemma then .str w.«lemma» else .null),
        ("morph", .obj ((stanzaMorph include_morph w).map
          (fun p => (p.1, Json.str p.2))))]

/-- `stanza_to_tokens(doc, include_lemma, include_morph)`: one sentence
object per `doc.sentences` entry; words whose `text` strips to empty are
skipped (`if not w.text.strip(): continue`). -/
def stanza_to_tokens (doc : StanzaDoc) (include_lemma include_morph : Bool) :
    List Json :=
  doc.sentences.map (fun s =>
    Json.obj [("tokens", Json.arr
      ((s.words.filter (fun w => !(pyStrip w.text == ""))).map
        (stanzaTokenJson include_lemma include_morph)))])

/-! ## Routes -/

/-- `STANZA_LANG = "de"`. -/
def STANZA_LANG : String := "de"

/-- Process-wide pipeline state: `SPACY_MODEL` (the environment value),
and the two optional pipeline handles. Invoking a pipeline on a text may
raise, hence `Except Unit`. -/
structure Registry where
  SPACY_MODEL : String
  nlp_spacy : Option (String → Except Unit SpacyDoc)
  nlp_stanza : Option (String → Except Unit StanzaDoc)

/-- The `/tag` request body with its pydantic defaults. -/
structure TagRequest where
  text : String
  splitSentences : Bool := true
  includeLemma : Bool := true
  includeMorph : Bool := true

/-- Outcome of a `/tag` call: a 200 JSON body, or an `HTTPException`
with status code and detail. -/
inductive TagResult where
  | ok : Json → TagResult
  | httpError : Nat → String → TagResult

/-- Whether a `/tag` call returned a 200 body. -/
def TagResult.isOk : TagResult → Bool
  | .ok _ => true
  | .httpError _ _ => false

/-- The 200 body of a `/tag` call (`null` for an error outcome). -/
def TagResult.body : TagResult → Json
  | .ok b => b
  | .httpError _ _ => .null

/-- The Stanza fallback arm of `tag`: if `nlp_stanza` is loaded, invoke it
and on success return the normalized response; on a raise, or with no
Stanza pipeline, fall through to the 503. -/
def tryStanza (reg : Registry) (req : TagRequest) (text : String) :
    TagResult :=
  match reg.nlp_stanza with
  | some pipe =>
    match pipe text with
    | .ok doc =>
        .ok (.obj [("model", .str ("stanza-" ++ STANZA_LANG)),
                   ("transformer", .bool true),
                   ("sentences", .arr (stanza_to_tokens doc
                     req.includeLemma req.includeMorph))])
    | .error _ => .httpError 503 "No tagging provider available"
  | none => .httpError 503 "No tagging provider available"

/-- `POST /tag`: trim the text and reject an empty result with 400; try
spaCy, falling through on a raise; then try Stanza; else 503. -/
def tag (reg : Registry) (req : TagRequest) : TagResult :=
  let text := pyStrip req.text
  if text = "" then .httpError 400 "Empty text"
  else
    match reg.nlp_spacy with
    | some pipe =>
      match pipe text with
      | .ok doc =>
          .ok (.obj [("model", .str reg.SPACY_MODEL),
                     ("transformer", .bool false),
                     ("sentences", .arr (spacy_to_tokens doc
                       req.includeLemma req.includeMorph))])
      | .error _ => tryStanza reg req text
    | none => tryStanza reg req text

/-- The sentence objects of a response body. -/
def sentencesOf (body : Json) : List Json :=
  match body.lookup "sentences" with
  | some (.arr ss) => ss
  | _ => []

/-- The token objects of a sentence object. -/
def tokensOf (s : Json) : List Json :=
  match s.lookup "tokens" with
  | some (.arr ts) => ts
  | _ => []

/-! ## Concrete instances used by witnesses -/

def c1Doc : SpacyDoc :=
  ⟨[⟨[⟨"Hallo", false, "INTJ", "hallo", .ok []⟩]⟩]⟩

def c1Reg : Registry :=
  ⟨"de_core_news_lg", some (fun _ => .ok c1Doc), none⟩

def c2Doc : StanzaDoc :=
  ⟨[⟨[⟨"Der", "DET", "der", some "Case=Nom"⟩]⟩]⟩

def c2Reg : Registry :=
  ⟨"de_core_news_lg", some (fun _ => .error ()), some (fun _ => .ok c2Doc)⟩

def c7Reg : Registry :=
  ⟨"de_core_news_lg", none, none⟩

def c3Word : StanzaWord := ⟨"x", "X", "x", some "K=a=b"⟩

def c3Word2 : StanzaWord := ⟨"x", "X", "x", some "K=a=b|Foo|Case=Nom"⟩

def c4Doc : SpacyDoc :=
  ⟨[⟨[⟨"Der", false, "DET", "der", Except.ok []⟩]⟩]⟩

def c4Reg : Registry :=
  ⟨"de_core_news_lg", some (fun _ => Except.ok c4Doc), none⟩

def c4Req : TagRequest := {text := "Der", includeLemma := false}

def c5Doc : SpacyDoc :=
  ⟨[⟨[⟨"Der", false, "DET", "der", Except.error ()⟩]⟩]⟩

def c5Reg : Registry :=
  ⟨"de_core_news_lg", some (fun _ => Except.ok c5Doc), none⟩

def c8Doc : StanzaDoc :=
  ⟨[⟨[⟨"Der", "DET", "der", some "Case=Nom"⟩]⟩]⟩

def c8Reg : Registry :=
  ⟨"de_core_news_lg", none, some (fun _ => Except.ok c8Doc)⟩

def c8Req : TagRequest := {text := "Der", includeMorph := false}

def c9Doc : SpacyDoc :=
  ⟨[⟨[⟨"Der", false, "DET", "der", Except.ok []⟩]⟩]⟩

def c9Reg : Registry :=
  ⟨"de_core_news_lg", some (fun _ => Except.ok c9Doc), none⟩

def c10SpacyDoc : SpacyDoc :=
  ⟨[⟨[⟨"Der", false, "DET", "der", Except.ok []⟩]⟩,
    ⟨[⟨" ", true, "SPACE", " ", Except.ok []⟩]⟩]⟩

def c10StanzaDoc : StanzaDoc :=
  ⟨[⟨[⟨"Der", "DET", "der", none⟩]⟩, ⟨[⟨" ", "X", " ", none⟩]⟩]⟩

/-! ## Helper lemmas -/

theorem tokensOf_sentJson (L : List Json) :
    tokensOf (Json.obj [("tokens", Json.arr L)]) = L := rfl

theorem sentencesOf_okBody (m : String) (b : Bool) (L : List Json) :
    sentencesOf (Json.obj [("model", Json.str m), ("transformer", Json.bool b),
      ("sentences", Json.arr L)]) = L := rfl

/-- Every outcome of `tag` is an error, a spaCy-normalized 200 produced by a
successful invocation of the loaded spaCy pipeline, or a Stanza-normalized
200 produced by a successful invocation of the loaded Stanza pipeline. -/
theorem tag_shape (reg : Registry) (req : TagRequest) :
    (tag reg req).isOk = false ∨
    (∃ pipe doc, reg.nlp_spacy = some pipe ∧
      pipe (pyStrip req.text) = Except.ok doc ∧
      tag reg req = .ok (.obj [("model", .str reg.SPACY_MODEL),
        ("transformer", .bool false),
        ("sentences", .arr (spacy_to_tokens doc
          req.includeLemma req.includeMorph))])) ∨
    (∃ pipe doc, reg.nlp_stanza = some pipe ∧
      pipe (pyStrip req.text) = Except.ok doc ∧
      tag reg req = .ok (.obj [("model", .str ("stanza-" ++ STANZA_LANG)),
        ("transformer", .bool true),
        ("sentences", .arr (stanza_to_tokens doc
          req.includeLemma req.includeMorph))])) := by
  by_cases h : pyStrip req.text = ""
  · left; simp [tag, h, TagResult.isOk]
  · cases hsp : reg.nlp_spacy with
    | some p =>
      cases hr : p (pyStrip req.text) with
      | ok doc =>
        right; left
        exact ⟨p, doc, rfl, hr, by simp [tag, h, hsp, hr]⟩
      | error e =>
        cases hst : reg.nlp_stanza with
        | some sp =>
          cases hsr : sp (pyStrip req.text) with
          | ok doc =>
            right; right
            exact ⟨sp, doc, rfl, hsr, by simp [tag, tryStanza, h, hsp, hr, hst, hsr]⟩
          | error e2 =>
            left; simp [tag, tryStanza, h, hsp, hr, hst, hsr, TagResult.isOk]
        | none =>
          left; simp [tag, tryStanza, h, hsp, hr, hst, TagResult.isOk]
    | none =>
      cases hst : reg.nlp_stanza with
      | some sp =>
        cases hsr : sp (pyStrip req.text) with
        | ok doc =>
          right; right
          exact ⟨sp, doc, rfl, hsr, by simp [tag, tryStanza, h, hsp, hst, hsr]⟩
        | error e2 =>
          left; simp [tag, tryStanza, h, hsp, hst, hsr, TagResult.isOk]
      | none =>
        left; simp [tag, tryStanza, h, hsp, hst, TagResult.isOk]

/-! ## Claims -/

/-- C1: for every non-empty trimmed text, if the primary (spaCy) pipeline is
available and its invocation (and normalization, which is total) succeeds,
the `/tag` response is a 200 whose `transformer` field is `false` and whose
`model` field is the configured `SPACY_MODEL` identifier. -/
theorem C1_primary_success_marks_spacy (reg : Registry) (req : TagRequest)
    (pipe : String → Except Unit SpacyDoc) (doc : SpacyDoc)
    (havail : reg.nlp_spacy = some pipe)
    (hne : ¬ pyStrip req.text = "")
    (hok : pipe (pyStrip req.text) = .ok doc) :
    (tag reg req).isOk = true ∧
    Json.lookup (tag reg req).body "transformer" = some (.bool false) ∧
    Json.lookup (tag reg req).body "model" = some (.str reg.SPACY_MODEL) := by
  have h : tag reg req = .ok (.obj [("model", .str reg.SPACY_MODEL),
      ("transformer", .bool false),
      ("sentences", .arr (spacy_to_tokens doc
        req.includeLemma req.includeMorph))]) := by
    simp [tag, hne, havail, hok]
  rw [h]
  exact ⟨rfl, rfl, rfl⟩

/-- Witness for C1: a concrete registry whose spaCy pipeline succeeds. -/
theorem C1_witness :
    (tag c1Reg {text := "Hallo"}).isOk = true ∧
    Json.lookup (tag c1Reg {text := "Hallo"}).body "transformer"
      = some (.bool false) ∧
    Json.lookup (tag c1Reg {text := "Hallo"}).body "model"
      = some (.str "de_core_news_lg") :=
  C1_primary_success_marks_spacy c1Reg {text := "Hallo"}
    (fun _ => .ok c1Doc) c1Doc rfl (by decide) rfl

/-- C2: for every non-empty trimmed text, if the primary pipeline is
unavailable or throws, and the secondary (Stanza) pipeline is available and
succeeds, the `/tag` response is a 200 whose `transformer` field is `true`
and whose `model` field is the secondary identifier `stanza-de`; the code
reaches the Stanza arm only after the spaCy arm was skipped or failed and
never re-enters the spaCy arm. -/
theorem C2_fallback_marks_stanza (reg : Registry) (req : TagRequest)
    (spipe : String → Except Unit StanzaDoc) (doc : StanzaDoc)
    (hprim : reg.nlp_spacy = none ∨
      ∃ pipe, reg.nlp_spacy = some pipe ∧
        pipe (pyStrip req.text) = .error ())
    (hne : ¬ pyStrip req.text = "")
    (havail : reg.nlp_stanza = some spipe)
    (hok : spipe (pyStrip req.text) = .ok doc) :
    (tag reg req).isOk = true ∧
    Json.lookup (tag reg req).body "transformer" = some (.bool true) ∧
    Json.lookup (tag reg req).body "model"
      = some (.str ("stanza-" ++ STANZA_LANG)) := by
  have hts : tryStanza reg req (pyStrip req.text) =
      .ok (.obj [("model", .str ("stanza-" ++ STANZA_LANG)),
        ("transformer", .bool true),
        ("sentences", .arr (stanza_to_tokens doc
          req.includeLemma req.includeMorph))]) := by
    simp [tryStanza, havail, hok]
  have h : tag reg req = tryStanza reg req (pyStrip req.text) := by
    rcases hprim with h0 | ⟨pipe, hp, he⟩
    · simp [tag, hne, h0]
    · simp [tag, hne, hp, he]
  rw [h, hts]
  exact ⟨rfl, rfl, rfl⟩

/-- Witness for C2: spaCy loaded but throwing, Stanza succeeding. -/
theorem C2_witness :
    (tag c2Reg {text := "Der"}).isOk = true ∧
    Json.lookup (tag c2Reg {text := "Der"}).body "transformer"
      = some (.bool true) ∧
    Json.lookup (tag c2Reg {text := "Der"}).body "model"
      = some (.str ("stanza-" ++ STANZA_LANG)) :=
  C2_fallback_marks_stanza c2Reg {text := "Der"}
    (fun _ => .ok c2Doc) c2Doc
    (Or.inr ⟨fun _ => .error (), rfl, rfl⟩) (by decide) rfl rfl

/-- C6: a request whose text trims to empty yields the 400 error with
detail "Empty text", for every registry (so whatever pipelines are loaded,
and without the result depending on any pipeline). -/
theorem C6_empty_text_400 (reg : Registry) (req : TagRequest)
    (h : pyStrip req.text = "") :
    tag reg req = .httpError 400 "Empty text" := by
  simp [tag, h]

/-- Witness for C6: whitespace-only text on a registry with a working
spaCy pipeline still yields the 400. -/
theorem C6_witness :
    tag c1Reg {text := "   "} = .httpError 400 "Empty text" :=
  C6_empty_text_400 c1Reg {text := "   "} (by decide)

/-- C7: for every non-empty trimmed text, when every loaded pipeline throws
(which subsumes the case where none is loaded), `tag` yields the 503 error
with detail "No tagging provider available". -/
theorem C7_no_provider_503 (reg : Registry) (req : TagRequest)
    (hne : ¬ pyStrip req.text = "")
    (hs : ∀ pipe, reg.nlp_spacy = some pipe →
      pipe (pyStrip req.text) = .error ())
    (ht : ∀ pipe, reg.nlp_stanza = some pipe →
      pipe (pyStrip req.text) = .error ()) :
    tag reg req = .httpError 503 "No tagging provider available" := by
  have hts : tryStanza reg req (pyStrip req.text) =
      .httpError 503 "No tagging provider available" := by
    cases h : reg.nlp_stanza with
    | none => simp [tryStanza, h]
    | some pipe => simp [tryStanza, h, ht pipe h]
  cases h : reg.nlp_spacy with
  | none =>
    simp [tag, hne, h]
    exact hts
  | some pipe =>
    simp [tag, hne, h, hs pipe h]
    exact hts

/-- Witness for C7: no pipeline loaded, non-empty text. -/
theorem C7_witness :
    tag c7Reg {text := "Der"} = .httpError 503 "No tagging provider available" :=
  C7_no_provider_503 c7Reg {text := "Der"} (by decide)
    (fun pipe h => by cases h) (fun pipe h => by cases h)

theorem splitOnCharAux_cons_eq (c : Char) (l : List Char) :
    splitOnCharAux c l =
      l.takeWhile (fun x => !(x == c)) ::
        (if l.contains c then
          splitOnCharAux c ((l.dropWhile (fun x => !(x == c))).drop 1)
        else []) := by
  induction l with
  | nil => simp [splitOnCharAux]
  | cons x xs ih =>
    by_cases hx : x = c
    · subst hx
      simp [splitOnCharAux, List.takeWhile_cons, List.dropWhile_cons]
    · have h1 : splitOnCharAux c (x :: xs) =
          match splitOnCharAux c xs with
          | [] => [[x]]
          | y :: ys => (x :: y) :: ys := by
        simp [splitOnCharAux, hx]
      rw [h1, ih]
      have hcx : ¬ c = x := fun hh => hx hh.symm
      simp [List.takeWhile_cons, List.dropWhile_cons, hx, hcx]

/-- For a chunk containing `=`, the code's `kv.split("=")[0]` is the text
before the first `=`, and `kv.split("=")[1]` is the text strictly between
the first `=` and the following `=` (or the end of the chunk). -/
theorem featPair_of_contains (kv : String)
    (h : kv.data.contains '=' = true) :
    featPair kv = some (⟨kv.data.takeWhile (fun x => !(x == '='))⟩,
      ⟨((kv.data.dropWhile (fun x => !(x == '='))).drop 1).takeWhile
        (fun x => !(x == '='))⟩) := by
  unfold featPair pySplitChar
  rw [splitOnCharAux_cons_eq, h, if_pos rfl,
    splitOnCharAux_cons_eq '=' ((kv.data.dropWhile (fun x => !(x == '='))).drop 1)]
  rfl

/-- A chunk without `=` contributes nothing to the feats dict. -/
theorem featPair_of_not_contains (kv : String)
    (h : kv.data.contains '=' = false) :
    featPair kv = none := by
  unfold featPair pySplitChar
  rw [splitOnCharAux_cons_eq, h, if_neg (by decide)]
  rfl

/-- C3 counterexample: on the feature chunk `K=a=b` the secondary
normalizer maps `K` to `a` (the text between the first and second `=`),
not to `a=b` as the claim's first-`=`-only split would give. -/
theorem C3_counterexample :
    stanzaMorph true c3Word = [("K", "a")] ∧
    ((stanzaMorph true c3Word).find? (fun p => p.1 == "K")).map
      (fun p => p.2) ≠ some "a=b" := by
  constructor
  · rfl
  · decide

/-- C3 amended: with `includeMorph` true and a non-empty feature string,
the morph mapping is built from the delimiter-joined chunks pair-by-pair;
each chunk is split on every `=`, the text before the first `=` becomes
the key and the text between the first and second `=` (or the end) becomes
the value (so a chunk `K=a=b` maps `K` to `a`), and a chunk containing no
`=` is skipped. -/
theorem C3_amended_feats_parsing (w : StanzaWord) (f : String)
    (hw : w.feats = some f) (hf : ¬ f = "") :
    stanzaMorph true w =
      dictOfPairs ((pySplitChar f '|').filterMap featPair) ∧
    (∀ kv : String, kv.data.contains '=' = true →
      featPair kv = some (⟨kv.data.takeWhile (fun x => !(x == '='))⟩,
        ⟨((kv.data.dropWhile (fun x => !(x == '='))).drop 1).takeWhile
          (fun x => !(x == '='))⟩)) ∧
    (∀ kv : String, kv.data.contains '=' = false → featPair kv = none) := by
  refine ⟨?_, featPair_of_contains, featPair_of_not_contains⟩
  simp [stanzaMorph, hw, hf, parseFeats]

/-- Witness for C3 amended on the feature string `K=a=b|Foo|Case=Nom`. -/
theorem C3_amended_witness :
    stanzaMorph true c3Word2 = [("K", "a"), ("Case", "Nom")] ∧
    featPair "K=a=b" = some ("K", "a") ∧
    featPair "Foo" = none := by
  obtain ⟨h1, h2, h3⟩ :=
    C3_amended_feats_parsing c3Word2 "K=a=b|Foo|Case=Nom" rfl (by decide)
  refine ⟨h1.trans (by rfl), (h2 "K=a=b" (by decide)).trans (by rfl),
    h3 "Foo" (by decide)⟩

theorem lookup_spacyTokenJson_text (il im : Bool) (t : SpacyToken) :
    Json.lookup (spacyTokenJson il im t) "text" = some (.str t.text) := rfl

theorem lookup_spacyTokenJson_lemma (il im : Bool) (t : SpacyToken) :
    Json.lookup (spacyTokenJson il im t) "lemma" =
      some (if il then .str t.lemma_ else .null) := rfl

theorem lookup_spacyTokenJson_morph (il im : Bool) (t : SpacyToken) :
    Json.lookup (spacyTokenJson il im t) "morph" =
      some (.obj ((spacyMorph im t).map (fun p => (p.1, Json.str p.2)))) := rfl

theorem lookup_stanzaTokenJson_text (il im : Bool) (w : StanzaWord) :
    Json.lookup (stanzaTokenJson il im w) "text" = some (.str w.text) := rfl

theorem lookup_stanzaTokenJson_lemma (il im : Bool) (w : StanzaWord) :
    Json.lookup (stanzaTokenJson il im w) "lemma" =
      some (if il then .str w.«lemma» else .null) := rfl

theorem lookup_stanzaTokenJson_morph (il im : Bool) (w : StanzaWord) :
    Json.lookup (stanzaTokenJson il im w) "morph" =
      some (.obj ((stanzaMorph im w).map (fun p => (p.1, Json.str p.2)))) := rfl

/-- Decompose membership in the primary normalizer's output: every
response token object of a spaCy run renders a kept (non-space) engine
token. -/
theorem mem_spacy_tokens {doc : SpacyDoc} {il im : Bool} {s tk : Json}
    (hs : s ∈ spacy_to_tokens doc il im) (htk : tk ∈ tokensOf s) :
    ∃ t : SpacyToken, (∃ sent ∈ doc.sents, t ∈ sent.toks) ∧
      t.is_space = false ∧ tk = spacyTokenJson il im t := by
  simp only [spacy_to_tokens, List.mem_map] at hs
  obtain ⟨sent, hsent, hEq⟩ := hs
  rw [← hEq, tokensOf_sentJson] at htk
  simp only [List.mem_map, List.mem_filter] at htk
  obtain ⟨t, ⟨htmem, htsp⟩, hEq2⟩ := htk
  exact ⟨t, ⟨sent, hsent, htmem⟩, by simpa using htsp, hEq2.symm⟩

/-- Decompose membership in the secondary normalizer's output: every
response token object of a Stanza run renders a kept (non-whitespace)
engine word. -/
theorem mem_stanza_tokens {doc : StanzaDoc} {il im : Bool} {s tk : Json}
    (hs : s ∈ stanza_to_tokens doc il im) (htk : tk ∈ tokensOf s) :
    ∃ w : StanzaWord, (∃ sent ∈ doc.sentences, w ∈ sent.words) ∧
      ¬ pyStrip w.text = "" ∧ tk = stanzaTokenJson il im w := by
  simp only [stanza_to_tokens, List.mem_map] at hs
  obtain ⟨sent, hsent, hEq⟩ := hs
  rw [← hEq, tokensOf_sentJson] at htk
  simp only [List.mem_map, List.mem_filter] at htk
  obtain ⟨w, ⟨hwmem, hwsp⟩, hEq2⟩ := htk
  refine ⟨w, ⟨sent, hsent, hwmem⟩, ?_, hEq2.symm⟩
  simpa using hwsp

/-- Every response token object comes from one of the two normalizers. -/
theorem mem_tag_tokens {reg : Registry} {req : TagRequest} {s tk : Json}
    (hs : s ∈ sentencesOf (tag reg req).body) (htk : tk ∈ tokensOf s) :
    (∃ doc : SpacyDoc, ∃ t : SpacyToken,
      (∃ sent ∈ doc.sents, t ∈ sent.toks) ∧ t.is_space = false ∧
      tk = spacyTokenJson req.includeLemma req.includeMorph t) ∨
    (∃ doc : StanzaDoc, ∃ w : StanzaWord,
      (∃ sent ∈ doc.sentences, w ∈ sent.words) ∧ ¬ pyStrip w.text = "" ∧
      tk = stanzaTokenJson req.includeLemma req.includeMorph w) := by
  rcases tag_shape reg req with hbad | ⟨p, doc, _, _, hEq⟩ | ⟨p, doc, _, _, hEq⟩
  · exfalso
    cases htag : tag reg req with
    | ok b => rw [htag, TagResult.isOk] at hbad; cases hbad
    | httpError c d =>
      rw [htag] at hs
      simp [TagResult.body, sentencesOf, Json.lookup] at hs
  · rw [hEq, TagResult.body, sentencesOf_okBody] at hs
    obtain ⟨t, hmem, hsp, hEq2⟩ := mem_spacy_tokens hs htk
    exact Or.inl ⟨doc, t, hmem, hsp, hEq2⟩
  · rw [hEq, TagResult.body, sentencesOf_okBody] at hs
    obtain ⟨w, hmem, hsp, hEq2⟩ := mem_stanza_tokens hs htk
    exact Or.inr ⟨doc, w, hmem, hsp, hEq2⟩

/-- C4 counterexample: with `includeLemma` false, the serialized token
still carries the `lemma` key, bound to JSON `null` (the source writes
`"lemma": ... else None` unconditionally), so the key is not absent. -/
theorem C4_counterexample :
    (tag c4Reg c4Req).isOk = true ∧
    Json.lookup ((tokensOf ((sentencesOf (tag c4Reg c4Req).body).getD 0
        Json.null)).getD 0 Json.null) "lemma" = some Json.null ∧
    some Json.null ≠ (none : Option Json) := by
  refine ⟨rfl, rfl, ?_⟩
  intro h
  cases h

/-- C4 amended: for every token produced by either normalizer, the `lemma`
key is always present in the serialized token: bound to JSON `null` when
`includeLemma` is false, and to the engine's lemma string when
`includeLemma` is true. -/
theorem C4_amended_lemma_null (reg : Registry) (req : TagRequest) :
    ∀ s ∈ sentencesOf (tag reg req).body, ∀ tk ∈ tokensOf s,
      (req.includeLemma = false → Json.lookup tk "lemma" = some Json.null) ∧
      (req.includeLemma = true →
        ∃ l, Json.lookup tk "lemma" = some (Json.str l)) := by
  intro s hs tk htk
  rcases mem_tag_tokens hs htk with ⟨_, t, _, _, hEq⟩ | ⟨_, w, _, _, hEq⟩
  · subst hEq
    constructor
    · intro hil
      rw [lookup_spacyTokenJson_lemma, hil, if_neg (by decide)]
    · intro hil
      exact ⟨t.lemma_, by rw [lookup_spacyTokenJson_lemma, hil, if_pos rfl]⟩
  · subst hEq
    constructor
    · intro hil
      rw [lookup_stanzaTokenJson_lemma, hil, if_neg (by decide)]
    · intro hil
      exact ⟨w.«lemma», by rw [lookup_stanzaTokenJson_lemma, hil, if_pos rfl]⟩

/-- Witness for C4 amended: the concrete `includeLemma=false` run carries
`lemma: null` on its only token. -/
theorem C4_amended_witness :
    Json.lookup (Json.obj [("text", Json.str "Der"), ("pos", Json.str "DET"),
      ("lemma", Json.null), ("morph", Json.obj [])]) "lemma"
      = some Json.null :=
  (C4_amended_lemma_null c4Reg c4Req
    (Json.obj [("tokens", Json.arr [Json.obj [("text", Json.str "Der"),
      ("pos", Json.str "DET"), ("lemma", Json.null),
      ("morph", Json.obj [])]])])
    (List.mem_singleton.mpr rfl)
    (Json.obj [("text", Json.str "Der"), ("pos", Json.str "DET"),
      ("lemma", Json.null), ("morph", Json.obj [])])
    (List.mem_singleton.mpr rfl)).1 rfl

theorem getD_map_of_lt {α β : Type _} (f : α → β) (l : List α) (i : Nat)
    (d : β) (h : i < l.length) :
    (l.map f).getD i d = f (l.get ⟨i, h⟩) := by
  simp [List.getD, List.getElem?_map, List.getElem?_eq_getElem h]

theorem spacyMorph_error (im : Bool) (t : SpacyToken)
    (h : t.morphToDict = .error ()) : spacyMorph im t = [] := by
  cases im with
  | false => rfl
  | true => simp [spacyMorph, h]

/-- C5: when the primary pipeline answers and the morph extraction of the
j-th kept token of the i-th sentence raises, the request still returns a
200, with that token present and its morph degraded to the empty mapping.
(In the secondary normalizer the morph extraction is pure string
splitting whose indexing is guarded by the `"=" in kv` test, so it has no
raising subterm to degrade from.) -/
theorem C5_morph_throw_degrades (reg : Registry) (req : TagRequest)
    (pipe : String → Except Unit SpacyDoc) (doc : SpacyDoc)
    (havail : reg.nlp_spacy = some pipe)
    (hne : ¬ pyStrip req.text = "")
    (hok : pipe (pyStrip req.text) = .ok doc)
    (i j : Nat) (hi : i < doc.sents.length)
    (hj : j < ((doc.sents.get ⟨i, hi⟩).toks.filter
      (fun t => !t.is_space)).length)
    (hthrow : (((doc.sents.get ⟨i, hi⟩).toks.filter
      (fun t => !t.is_space)).get ⟨j, hj⟩).morphToDict = .error ()) :
    (tag reg req).isOk = true ∧
    Json.lookup ((tokensOf ((sentencesOf (tag reg req).body).getD i
      Json.null)).getD j Json.null) "morph" = some (Json.obj []) := by
  have h : tag reg req = .ok (.obj [("model", .str reg.SPACY_MODEL),
      ("transformer", .bool false),
      ("sentences", .arr (spacy_to_tokens doc
        req.includeLemma req.includeMorph))]) := by
    simp [tag, hne, havail, hok]
  rw [h]
  refine ⟨rfl, ?_⟩
  show Json.lookup ((tokensOf ((spacy_to_tokens doc req.includeLemma
    req.includeMorph).getD i Json.null)).getD j Json.null) "morph"
    = some (Json.obj [])
  rw [spacy_to_tokens, getD_map_of_lt _ _ _ _ hi, tokensOf_sentJson,
    getD_map_of_lt _ _ _ _ hj, lookup_spacyTokenJson_morph,
    spacyMorph_error _ _ hthrow]
  rfl

/-- Witness for C5: a one-token document whose morph extraction raises. -/
theorem C5_witness :
    (tag c5Reg {text := "Der"}).isOk = true ∧
    Json.lookup ((tokensOf ((sentencesOf
      (tag c5Reg {text := "Der"}).body).getD 0 Json.null)).getD 0
      Json.null) "morph" = some (Json.obj []) :=
  C5_morph_throw_degrades c5Reg {text := "Der"} (fun _ => Except.ok c5Doc)
    c5Doc rfl (by decide) rfl 0 0 (by decide) (by decide) rfl

/-- C8: whenever `includeMorph` is false and the request succeeds, every
token of the response has an empty morph mapping, whichever engine
answered. -/
theorem C8_includeMorph_false (reg : Registry) (req : TagRequest)
    (hm : req.includeMorph = false) :
    ∀ s ∈ sentencesOf (tag reg req).body, ∀ tk ∈ tokensOf s,
      Json.lookup tk "morph" = some (Json.obj []) := by
  intro s hs tk htk
  rcases mem_tag_tokens hs htk with ⟨_, t, _, _, hEq⟩ | ⟨_, w, _, _, hEq⟩
  · subst hEq
    rw [lookup_spacyTokenJson_morph, hm]
    rfl
  · subst hEq
    rw [lookup_stanzaTokenJson_morph, hm]
    rfl

/-- Witness for C8: a Stanza answer with `includeMorph` false carries an
empty morph mapping even though the engine reported features. -/
theorem C8_witness :
    Json.lookup (Json.obj [("text", Json.str "Der"), ("pos", Json.str "DET"),
      ("lemma", Json.str "der"), ("morph", Json.obj [])]) "morph"
      = some (Json.obj []) :=
  C8_includeMorph_false c8Reg c8Req rfl
    (Json.obj [("tokens", Json.arr [Json.obj [("text", Json.str "Der"),
      ("pos", Json.str "DET"), ("lemma", Json.str "der"),
      ("morph", Json.obj [])]])])
    (List.mem_singleton.mpr rfl)
    (Json.obj [("text", Json.str "Der"), ("pos", Json.str "DET"),
      ("lemma", Json.str "der"), ("morph", Json.obj [])])
    (List.mem_singleton.mpr rfl)

/-- C9: both normalizers skip engine tokens that are empty or whitespace
after trimming, so (under spaCy's documented semantics of `is_space`,
namely that a token whose text trims to empty is flagged as space) every
token of every response has a surface text that is non-empty after
trimming. -/
theorem C9_response_tokens_nonspace (reg : Registry) (req : TagRequest)
    (hwf : ∀ pipe, reg.nlp_spacy = some pipe → ∀ doc,
      pipe (pyStrip req.text) = Except.ok doc →
      ∀ sent ∈ doc.sents, ∀ t ∈ sent.toks,
        pyStrip t.text = "" → t.is_space = true) :
    ∀ s ∈ sentencesOf (tag reg req).body, ∀ tk ∈ tokensOf s,
      ∀ txt, Json.lookup tk "text" = some (Json.str txt) →
        ¬ pyStrip txt = "" := by
  intro s hs tk htk txt htxt
  rcases tag_shape reg req with hbad | ⟨p, doc, hsp, hok, hEq⟩ |
    ⟨p, doc, hst, hok, hEq⟩
  · exfalso
    cases htag : tag reg req with
    | ok b => rw [htag, TagResult.isOk] at hbad; cases hbad
    | httpError c d =>
      rw [htag] at hs
      simp [TagResult.body, sentencesOf, Json.lookup] at hs
  · rw [hEq, TagResult.body, sentencesOf_okBody] at hs
    obtain ⟨t, ⟨sent, hsent, htmem⟩, hspace, hEq2⟩ := mem_spacy_tokens hs htk
    subst hEq2
    rw [lookup_spacyTokenJson_text] at htxt
    injection htxt with h1
    injection h1 with h1
    subst h1
    intro hstrip
    have h2 := hwf p hsp doc hok sent hsent t htmem hstrip
    rw [h2] at hspace
    exact Bool.noConfusion hspace
  · rw [hEq, TagResult.body, sentencesOf_okBody] at hs
    obtain ⟨w, _, hnsp, hEq2⟩ := mem_stanza_tokens hs htk
    subst hEq2
    rw [lookup_stanzaTokenJson_text] at htxt
    injection htxt with h1
    injection h1 with h1
    subst h1
    exact hnsp

/-- Witness for C9 on a concrete spaCy run. -/
theorem C9_witness : ¬ pyStrip "Der" = "" :=
  C9_response_tokens_nonspace c9Reg {text := "Der"}
    (by
      intro p hp doc hd sent hsent t ht hstrip
      have hp' : (some (fun _ : String => Except.ok c9Doc) :
          Option (String → Except Unit SpacyDoc)) = some p := hp
      injection hp' with h1
      subst h1
      have hd' : (Except.ok c9Doc : Except Unit SpacyDoc)
          = Except.ok doc := hd
      injection hd' with h2
      subst h2
      simp only [c9Doc, List.mem_singleton] at hsent
      subst hsent
      simp only [List.mem_singleton] at ht
      subst ht
      exact absurd hstrip (by decide))
    (Json.obj [("tokens", Json.arr [Json.obj [("text", Json.str "Der"),
      ("pos", Json.str "DET"), ("lemma", Json.str "der"),
      ("morph", Json.obj [])]])])
    (List.mem_singleton.mpr rfl)
    (Json.obj [("text", Json.str "Der"), ("pos", Json.str "DET"),
      ("lemma", Json.str "der"), ("morph", Json.obj [])])
    (List.mem_singleton.mpr rfl)
    "Der" rfl

/-- C10: each normalizer emits exactly one sentence object per
engine-reported sentence, in the engine's order (the i-th output renders
the i-th input sentence), and a sentence all of whose tokens are
whitespace-only still appears, as a sentence with an empty token list. -/
theorem C10_sentence_alignment :
    (∀ (doc : SpacyDoc) (il im : Bool),
      (spacy_to_tokens doc il im).length = doc.sents.length ∧
      ∀ i, ∀ hi : i < doc.sents.length,
        tokensOf ((spacy_to_tokens doc il im).getD i Json.null) =
          ((doc.sents.get ⟨i, hi⟩).toks.filter (fun t => !t.is_space)).map
            (spacyTokenJson il im) ∧
        ((∀ t ∈ (doc.sents.get ⟨i, hi⟩).toks, t.is_space = true) →
          tokensOf ((spacy_to_tokens doc il im).getD i Json.null) = [])) ∧
    (∀ (doc : StanzaDoc) (il im : Bool),
      (stanza_to_tokens doc il im).length = doc.sentences.length ∧
      ∀ i, ∀ hi : i < doc.sentences.length,
        tokensOf ((stanza_to_tokens doc il im).getD i Json.null) =
          ((doc.sentences.get ⟨i, hi⟩).words.filter
            (fun w => !(pyStrip w.text == ""))).map (stanzaTokenJson il im) ∧
        ((∀ w ∈ (doc.sentences.get ⟨i, hi⟩).words, pyStrip w.text = "") →
          tokensOf ((stanza_to_tokens doc il im).getD i Json.null) = [])) := by
  constructor
  · intro doc il im
    refine ⟨by simp [spacy_to_tokens], ?_⟩
    intro i hi
    have ht : tokensOf ((spacy_to_tokens doc il im).getD i Json.null) =
        ((doc.sents.get ⟨i, hi⟩).toks.filter (fun t => !t.is_space)).map
          (spacyTokenJson il im) := by
      rw [spacy_to_tokens, getD_map_of_lt _ _ _ _ hi, tokensOf_sentJson]
    refine ⟨ht, ?_⟩
    intro hall
    rw [ht]
    have hnil : (doc.sents.get ⟨i, hi⟩).toks.filter
        (fun t => !t.is_space) = [] := by
      rw [List.filter_eq_nil_iff]
      intro t htmem
      simp [hall t htmem]
    rw [hnil]
    rfl
  · intro doc il im
    refine ⟨by simp [stanza_to_tokens], ?_⟩
    intro i hi
    have ht : tokensOf ((stanza_to_tokens doc il im).getD i Json.null) =
        ((doc.sentences.get ⟨i, hi⟩).words.filter
          (fun w => !(pyStrip w.text == ""))).map (stanzaTokenJson il im) := by
      rw [stanza_to_tokens, getD_map_of_lt _ _ _ _ hi, tokensOf_sentJson]
    refine ⟨ht, ?_⟩
    intro hall
    rw [ht]
    have hnil : (doc.sentences.get ⟨i, hi⟩).words.filter
        (fun w => !(pyStrip w.text == "")) = [] := by
      rw [List.filter_eq_nil_iff]
      intro w hwmem
      simp [hall w hwmem]
    rw [hnil]
    rfl

/-- Witness for C10: two-sentence documents whose second sentence is all
whitespace still yield two sentence objects, the second with no tokens. -/
theorem C10_witness :
    (spacy_to_tokens c10SpacyDoc true true).length = 2 ∧
    tokensOf ((spacy_to_tokens c10SpacyDoc true true).getD 1 Json.null)
      = [] ∧
    (stanza_to_tokens c10StanzaDoc true true).length = 2 ∧
    tokensOf ((stanza_to_tokens c10StanzaDoc true true).getD 1 Json.null)
      = [] := by
  obtain ⟨hsp, hst⟩ := C10_sentence_alignment
  obtain ⟨hlen, hidx⟩ := hsp c10SpacyDoc true true
  obtain ⟨hlen2, hidx2⟩ := hst c10StanzaDoc true true
  exact ⟨hlen.trans (by rfl), (hidx 1 (by decide)).2 (by decide),
    hlen2.trans (by rfl), (hidx2 1 (by decide)).2 (by decide)⟩

end GermanPosApi
